import Mathlib

/-!
Shallow embedding of `src/all_ips.py` (ASN → IP address collector).

The program resolves an ASN to its announced CIDR route strings via a WHOIS
subprocess, expands each route into the full list of contained IPv4 addresses,
and writes them to a file.  The embedding below models:

* Python string primitives used by the script (`str.strip`, `str.split` with a
  one-character or multi-character separator, `str.upper` / `str.lower` on the
  ASCII range, `in` on strings, `sorted`, `set`),
* `ipaddress.ip_network(s, strict=False)` for IPv4 inputs written either as a
  bare dotted-quad address or as `addr/<decimal mask length>` (the forms the
  `route:` pipeline produces; dotted-netmask and IPv6 syntax are outside the
  model), together with its address iteration,
* the four functions of the script: `get_all_prefixes_from_asn`,
  `generate_ips_for_prefix`, `save_all_ips`, and `main`.

Effects are made explicit: the WHOIS subprocess result is a `WhoisOutcome`
value, the interactive confirmation answer and the scheduler's task-completion
order are parameters, the lines written to the output file are returned as a
list, and process exit / crash is the `MainOutcome` type.
-/

/-- Python whitespace for `str.strip`, restricted to the ASCII range. -/
def pyIsSpace (c : Char) : Bool :=
  c == ' ' || c == '\t' || c == '\n' || c == '\r' || c == '\x0b' || c == '\x0c'

/-- Python `str.strip()` on the character list of a string. -/
def pyStrip (l : List Char) : List Char :=
  ((l.dropWhile pyIsSpace).reverse.dropWhile pyIsSpace).reverse

/-- Worker for `splitOnChar`: accumulates the current field in reverse. -/
def splitOnCharAux (c : Char) : List Char → List Char → List (List Char)
  | [], acc => [acc.reverse]
  | x :: xs, acc =>
    if x == c then acc.reverse :: splitOnCharAux c xs []
    else splitOnCharAux c xs (x :: acc)

/-- Python `str.split(sep)` for a one-character separator (keeps empty fields,
`"".split(c) = [""]`). -/
def splitOnChar (c : Char) (l : List Char) : List (List Char) :=
  splitOnCharAux c l []

/-- Splits a character list at the first occurrence of (non-empty) `sep`:
`some (before, after)`, or `none` when `sep` does not occur. -/
def splitFirst (sep : List Char) : List Char → Option (List Char × List Char)
  | [] => none
  | x :: xs =>
    if sep.isPrefixOf (x :: xs) then some ([], (x :: xs).drop sep.length)
    else
      match splitFirst sep xs with
      | some (before, after) => some (x :: before, after)
      | none => none

/-- Python `line.split(sep)[1]`: the field between the first occurrence of
`sep` and the next one (or the end of the string), `none` when `sep` does not
occur (where Python would raise `IndexError`). -/
def pySplitSecond (sep : List Char) (l : List Char) : Option (List Char) :=
  match splitFirst sep l with
  | none => none
  | some (_, rest) =>
    match splitFirst sep rest with
    | none => some rest
    | some (mid, _) => some mid

/-- Python `str.upper()` on the ASCII range. -/
def pyUpper (s : String) : String :=
  String.mk (s.data.map Char.toUpper)

/-- Python `str.lower()` on the ASCII range. -/
def pyLower (s : String) : String :=
  String.mk (s.data.map Char.toLower)

/-- Numeric value of a decimal digit string (callers guard that every
character is a digit). -/
def digitsToNat (l : List Char) : Nat :=
  l.foldl (fun a c => a * 10 + (c.toNat - 48)) 0

/-- CPython `ipaddress._parse_octet`: non-empty, decimal digits only, at most
3 characters, no leading zero, value at most 255. -/
def parseOctet (l : List Char) : Option Nat :=
  if l.isEmpty then none
  else if !(l.all Char.isDigit) then none
  else if l.length > 3 then none
  else if l ≠ ['0'] && l.head? == some '0' then none
  else
    let v := digitsToNat l
    if v > 255 then none else some v

/-- CPython `IPv4Address._ip_int_from_string`: exactly four octets joined by
dots, packed big-endian into one natural number. -/
def parseIPv4 (l : List Char) : Option Nat :=
  match splitOnChar '.' l with
  | [a, b, c, d] =>
    match parseOctet a, parseOctet b, parseOctet c, parseOctet d with
    | some a, some b, some c, some d =>
      some (((a * 256 + b) * 256 + c) * 256 + d)
    | _, _, _, _ => none
  | _ => none

/-- CPython `_prefix_from_prefix_string`: decimal digits only, value at most
the maximal mask length 32. -/
def parseMaskLen (l : List Char) : Option Nat :=
  if l.isEmpty then none
  else if !(l.all Char.isDigit) then none
  else
    let v := digitsToNat l
    if v ≤ 32 then some v else none

/-- Models `ipaddress.ip_network(s, strict=False)` for IPv4 inputs written as
`addr` or `addr/<decimal mask length>` (at most one slash; with `strict=False`
the host bits are masked off, not rejected).  Returns the network address as a
natural number together with the mask length. -/
def ipNetworkV4 (s : String) : Option (Nat × Nat) :=
  match splitOnChar '/' s.data with
  | [a] => (parseIPv4 a).map (fun n => (n, 32))
  | [a, p] =>
    match parseIPv4 a, parseMaskLen p with
    | some n, some pl => some (n / 2 ^ (32 - pl) * 2 ^ (32 - pl), pl)
    | _, _ => none
  | _ => none

/-- `str(IPv4Address(n))`: dotted-quad rendering of a 32-bit value. -/
def ipv4ToString (n : Nat) : String :=
  toString (n / 2 ^ 24 % 256) ++ "." ++ toString (n / 2 ^ 16 % 256) ++ "." ++
    toString (n / 2 ^ 8 % 256) ++ "." ++ toString (n % 256)

/-- `IPv4Network.__iter__`: the numeric values `range(network, broadcast + 1)`,
i.e. every address of the network including network and broadcast. -/
def networkRange (a pl : Nat) : List Nat :=
  (List.range (2 ^ (32 - pl))).map (fun i => a + i)

/-- Embeds `generate_ips_for_prefix` (src/all_ips.py lines 32-39): parse the
CIDR text non-strictly, materialize every contained address as a string, and
return `(original text, addresses, count)`; any parse failure is caught and
yields `(original text, [], 0)`.  The embedding is a total function, matching
the catch-all `except` that keeps the source function from raising. -/
def generate_ips_for_prefix (pfx : String) : String × List String × Nat :=
  match ipNetworkV4 pfx with
  | some (a, pl) =>
    let ips := (networkRange a pl).map ipv4ToString
    (pfx, ips, ips.length)
  | none => (pfx, [], 0)

/-- The literal label `route:` that the resolver scans for. -/
def routeLabel : List Char := "route:".data

/-- Embeds the parsing loop of `get_all_prefixes_from_asn` (src/all_ips.py
lines 18-23): split the WHOIS response on newlines; for each line whose
stripped form begins with `route:`, take `line.split(routeLabel)[1]` — the text
between the first occurrence of the label and the next one (or the end of the
line) — strip it, and keep it when it contains a slash.  Under the guard the
label occurs in the line, so the `none` branch of `pySplitSecond` (Python's
`IndexError`) is unreachable. -/
def extractRoutePrefixes (stdout : String) : List String :=
  (splitOnChar '\n' stdout.data).filterMap fun line =>
    if routeLabel.isPrefixOf (pyStrip line) then
      match pySplitSecond routeLabel line with
      | some seg =>
        let p := pyStrip seg
        if p.contains '/' then some (String.mk p) else none
      | none => none
    else none

/-- Modelled from the claim wording for the resolver ("extracts the substring
after the label, trims whitespace"): takes ALL text after the first occurrence
of `route:` to the end of the line.  This is the comparison point for the
refinement check against `extractRoutePrefixes`, which instead takes Python's
`split` field 1. -/
def extractRouteSpecWords (stdout : String) : List String :=
  (splitOnChar '\n' stdout.data).filterMap fun line =>
    if routeLabel.isPrefixOf (pyStrip line) then
      match splitFirst routeLabel line with
      | some (_, after) =>
        let p := pyStrip after
        if p.contains '/' then some (String.mk p) else none
      | none => none
    else none

/-- Python `sorted(set(l))` for strings: the sorted list of the distinct
elements (string order is lexicographic on code points). -/
def sortedSet (l : List String) : List String :=
  List.insertionSort (· ≤ ·) l.dedup

/-- Result of the `subprocess.run` call for the WHOIS lookup.  `raised` covers
every exception the call can raise (`TimeoutExpired` on the 30-second timeout,
`OSError` when the client is missing, ...), all of which land in the
function's catch-all `except`; `completed` carries the return code, stdout and
stderr of a finished subprocess. -/
inductive WhoisOutcome where
  | raised (msg : String) : WhoisOutcome
  | completed (returncode : Int) (stdout stderr : String) : WhoisOutcome

/-- Embeds `get_all_prefixes_from_asn` (src/all_ips.py lines 7-30) as a
function of the subprocess outcome: any exception or a non-zero return code
yields `[]` (the error is only printed), otherwise the `route:` lines of
stdout are scraped and returned as `sorted(set(...))`.  The `asn` argument
only feeds the subprocess command line and the progress messages. -/
def get_all_prefixes_from_asn (asn : String) (whois : WhoisOutcome) : List String :=
  match whois with
  | .raised _ => []
  | .completed returncode stdout _ =>
    if returncode ≠ 0 then []
    else sortedSet (extractRoutePrefixes stdout)

/-- Accumulator pass of the `as_completed` drain loop in `save_all_ips`
(src/all_ips.py lines 52-66): for each completed task, append its addresses to
the lines written so far, add its count to the running total, and append one
`(prefix, count)` stats entry. -/
def saveAllIpsGo (acc : List String × Nat × List (String × Nat)) :
    List String → List String × Nat × List (String × Nat)
  | [] => acc
  | p :: rest =>
    let r := generate_ips_for_prefix p
    saveAllIpsGo (acc.1 ++ r.2.1, acc.2.1 + r.2.2, acc.2.2 ++ [(r.1, r.2.2)]) rest

/-- Embeds `save_all_ips` (src/all_ips.py lines 41-68).  The worker pool makes
the drain order nondeterministic, so the embedding takes the task-completion
order as its list argument (a permutation of the submitted prefixes; the
thread pool itself adds no other observable behaviour, since workers only
return values and the single draining thread does all writing).  Returns
`(output_file, lines written to the file, total count, per-prefix stats)`.
`future.result()` never raises here because `generate_ips_for_prefix` catches
every exception, so the drain loop's `except` branch is unreachable. -/
def save_all_ips (completed : List String) (output_file : String) :
    String × List String × Nat × List (String × Nat) :=
  let r := saveAllIpsGo ([], 0, []) completed
  (output_file, r.1, r.2.1, r.2.2)

/-- Embeds the ASN normalization in `main` (src/all_ips.py lines 81-83):
uppercase the argument, then prepend `AS` unless the uppercased string already
starts with it. -/
def normalize_asn (raw : String) : String :=
  let asn := pyUpper raw
  if ['A', 'S'].isPrefixOf asn.data then asn else "AS" ++ asn

/-- Embeds the argparse configuration of `main` (src/all_ips.py lines 71-79):
`--asn` is declared WITHOUT `required=True`, so an invocation that omits it
parses successfully with `args.asn = None` (modelled `some none`); a parser
usage error would be `none`. -/
def parse_asn_arg (argvAsn : Option String) : Option (Option String) :=
  some argvAsn

/-- Responses the confirmation prompt accepts (src/all_ips.py line 101). -/
def yes_answers : List String := ["ye", "yes", "y"]

/-- Observable outcome of a run of `main`: an uncaught exception (`crashed`),
an explicit `sys.exit` (`exited`), or a completed run (`finished`, process
exit status 0) carrying the `save_all_ips` result — output path, lines written
to the file, total count, per-prefix stats.  Only a `finished` run opens,
truncates or writes the output file. -/
inductive MainOutcome where
  | crashed (msg : String) : MainOutcome
  | exited (code : Nat) : MainOutcome
  | finished (result : String × List String × Nat × List (String × Nat)) : MainOutcome
deriving DecidableEq

/-- Embeds `main` (src/all_ips.py lines 70-113) as a function of the parsed
arguments, the WHOIS subprocess outcome, the confirmation-prompt answer and
the pool's task-completion schedule.  When `--asn` is omitted `args.asn` is
`None` and `args.asn.upper()` raises an uncaught `AttributeError`.  Otherwise:
normalize the ASN, resolve prefixes, `sys.exit(1)` when none were found,
prompt unless `--batch` and `sys.exit(0)` on a non-yes answer, else collect
into the output file and return (exit status 0). -/
def main_model (asnArg : Option String) (output : String) (batch : Bool)
    (whois : WhoisOutcome) (response : String)
    (schedule : List String → List String) : MainOutcome :=
  match asnArg with
  | none => .crashed "AttributeError"
  | some raw =>
    let asn := normalize_asn raw
    let pfxs := get_all_prefixes_from_asn asn whois
    if pfxs.isEmpty then .exited 1
    else if batch = false ∧ yes_answers.contains (pyLower response) = false then
      .exited 0
    else .finished (save_all_ips (schedule pfxs) output)

/-- The expander always returns its input text as the first component. -/
theorem gen_fst (s : String) : ( generate_ips_for_prefix s).1 = s := by
  unfold generate_ips_for_prefix
  split <;> rfl

/-- The expander's returned count is the length of its returned address
list (`len(ips)` in the source). -/
theorem gen_len (s : String) :
    ( generate_ips_for_prefix s).2.1.length = ( generate_ips_for_prefix s).2.2 := by
  unfold generate_ips_for_prefix
  split <;> rfl

/-- Closed form of the drain-loop accumulator: lines are the concatenation of
the per-task address blocks in completion order, the total is the sum of the
per-task counts, and the stats list has one entry per completed task. -/
theorem saveAllIpsGo_spec (l : List String)
    (acc : List String × Nat × List (String × Nat)) :
    saveAllIpsGo acc l =
      (acc.1 ++ (l.map (fun p => ( generate_ips_for_prefix p).2.1)).flatten,
       acc.2.1 + (l.map (fun p => ( generate_ips_for_prefix p).2.2)).sum,
       acc.2.2 ++ l.map (fun p => (p, ( generate_ips_for_prefix p).2.2))) := by
  induction l generalizing acc with
  | nil => simp [saveAllIpsGo]
  | cons p rest ih =>
    simp [saveAllIpsGo, ih, gen_fst, List.append_assoc, Nat.add_assoc]

/-- Closed form of `save_all_ips` on a given completion order. -/
theorem save_all_ips_spec (completed : List String) (o : String) :
    save_all_ips completed o =
      (o, (completed.map (fun p => ( generate_ips_for_prefix p).2.1)).flatten,
       (completed.map (fun p => ( generate_ips_for_prefix p).2.2)).sum,
       completed.map (fun p => (p, ( generate_ips_for_prefix p).2.2))) := by
  simp [save_all_ips, saveAllIpsGo_spec]


/-- C4: the normalizer uppercases its input and, when the uppercased result
does not already start with `AS`, prepends `AS`; so any input lacking the
prefix gets it prepended uppercase and already-prefixed input in any case maps
to the uppercase canonical form ("as8945" → "AS8945", "AS8945" → "AS8945",
"8945" → "AS8945"), and the result always starts with `AS`. -/
theorem C4_normalizer_canonical_form (raw : String) :
    (['A', 'S'].isPrefixOf (pyUpper raw).data = true →
      normalize_asn raw = pyUpper raw) ∧
    (¬ ['A', 'S'].isPrefixOf (pyUpper raw).data = true →
      normalize_asn raw = "AS" ++ pyUpper raw) ∧
    ['A', 'S'].isPrefixOf (normalize_asn raw).data = true ∧
    normalize_asn "as8945" = "AS8945" ∧
    normalize_asn "AS8945" = "AS8945" ∧
    normalize_asn "8945" = "AS8945" := by
  refine ⟨?_, ?_, ?_, by decide, by decide, by decide⟩
  · intro h; simp [normalize_asn, h]
  · intro h; simp [normalize_asn, h]
  · by_cases h : ['A', 'S'].isPrefixOf (pyUpper raw).data = true
    · simp [normalize_asn, h]
    · simp [normalize_asn, h]

/-- Witness for C4 at concrete inputs: both hypotheses are dischargeable. -/
theorem C4_normalizer_canonical_form_witness :
    normalize_asn "8945" = "AS" ++ pyUpper "8945" ∧
    normalize_asn "as8945" = pyUpper "as8945" := by
  exact ⟨(C4_normalizer_canonical_form "8945").2.1 (by decide),
    (C4_normalizer_canonical_form "as8945").1 (by decide)⟩

/-- C5: on any resolution failure — an exception (including the subprocess
timeout) or a non-zero WHOIS exit status — the resolver returns the empty
list without raising; and whenever the resolver returns the empty list, the
run exits with status 1. -/
theorem C5_resolution_failure_is_fatal :
    (∀ asn msg, get_all_prefixes_from_asn asn (.raised msg) = []) ∧
    (∀ asn rc out err, rc ≠ 0 →
      get_all_prefixes_from_asn asn (.completed rc out err) = []) ∧
    (∀ raw o b w r sched,
      get_all_prefixes_from_asn (normalize_asn raw) w = [] →
      main_model (some raw) o b w r sched = .exited 1) := by
  refine ⟨fun _ _ => rfl, ?_, ?_⟩
  · intro asn rc out err h
    simp [get_all_prefixes_from_asn, h]
  · intro raw o b w r sched h
    simp [main_model, h]

/-- Witness for C5: a non-zero exit status yields the empty list, and a
response with no `route:` lines makes the run exit with status 1. -/
theorem C5_resolution_failure_is_fatal_witness :
    get_all_prefixes_from_asn "AS8945" (.completed 1 "route: 1.2.3.0/24" "") = [] ∧
    main_model (some "8945") "ALL_IPS_ASN.txt" true
        (.completed 0 "no routes here" "") "" id = .exited 1 := by
  exact ⟨C5_resolution_failure_is_fatal.2.1 "AS8945" 1 "route: 1.2.3.0/24" ""
      (by decide),
    C5_resolution_failure_is_fatal.2.2 "8945" "ALL_IPS_ASN.txt" true
      (.completed 0 "no routes here" "") "" id (by decide)⟩

/-- C6: for every prefix string that fails to parse as an IP network, the
expander returns the triple (original string, empty list, 0); it is a total
function, so no exception reaches its caller. -/
theorem C6_expander_failure_triple :
    (∀ s, ipNetworkV4 s = none → generate_ips_for_prefix s = (s, [], 0)) ∧
    generate_ips_for_prefix "not-a-prefix" = ("not-a-prefix", [], 0) := by
  refine ⟨?_, by decide⟩
  intro s h
  simp [ generate_ips_for_prefix, h]

/-- Witness for C6 at a concrete unparseable input (mask length 33). -/
theorem C6_expander_failure_triple_witness :
    generate_ips_for_prefix "10.0.0.0/33" = ("10.0.0.0/33", [], 0) :=
  C6_expander_failure_triple.1 "10.0.0.0/33" (by decide)

/-- C7: without `--batch`, any confirmation response whose lowercase form is
not "y"/"yes"/"ye" — the empty response included — makes the run exit with
status 0 and never reach `save_all_ips` (so the output file is not opened,
truncated or written); with `--batch` the prompt is skipped entirely, and the
outcome does not depend on the response. -/
theorem C7_confirmation_gate :
    (∀ raw o w r sched, yes_answers.contains (pyLower r) = false →
      get_all_prefixes_from_asn (normalize_asn raw) w ≠ [] →
      main_model (some raw) o false w r sched = .exited 0) ∧
    (∀ raw o w r r2 sched,
      main_model (some raw) o true w r sched
        = main_model (some raw) o true w r2 sched) := by
  constructor
  · intro raw o w r sched hr hp
    simp [main_model, hp]
    simpa using hr
  · intro raw o w r r2 sched
    rfl

/-- Witness for C7: with resolved prefixes present and an empty response, the
run exits with status 0. -/
theorem C7_confirmation_gate_witness :
    yes_answers.contains (pyLower "") = false ∧
    main_model (some "8945") "ALL_IPS_ASN.txt" false
        (.completed 0 "route: 1.2.3.0/24" "") "" id = .exited 0 := by
  exact ⟨by decide, C7_confirmation_gate.1 "8945" "ALL_IPS_ASN.txt"
    (.completed 0 "route: 1.2.3.0/24" "") "" id (by decide) (by decide)⟩

/-- C8 (code behaviour at the failing input): `--asn` is NOT marked required,
so an invocation omitting it is accepted by argument parsing with
`args.asn = None`, and the run then crashes with an uncaught `AttributeError`
at `args.asn.upper()` — it does reach ASN normalization, and is not rejected
by argparse. -/
theorem C8_missing_asn_not_rejected_at_parse :
    parse_asn_arg none = some none ∧
    parse_asn_arg none ≠ none ∧
    (∀ o b w r sched,
      main_model none o b w r sched = .crashed "AttributeError") := by
  exact ⟨rfl, by decide, fun _ _ _ _ _ => rfl⟩

/-- C10: the first component of the expander's result is always the original
input text — also when non-strict parsing masked host bits off ("10.0.0.5/30"
normalizes to network 10.0.0.4/30 yet is reported as "10.0.0.5/30") and on
parse failure — and the per-prefix stats entries carry exactly that original
text together with the count. -/
theorem C10_stats_carry_original_text :
    (∀ s, ( generate_ips_for_prefix s).1 = s) ∧
    (∀ completed o, ( save_all_ips completed o).2.2.2
        = completed.map (fun p => (p, ( generate_ips_for_prefix p).2.2))) ∧
    ( generate_ips_for_prefix "10.0.0.5/30").1 = "10.0.0.5/30" ∧
    ipNetworkV4 "10.0.0.5/30" = some (167772164, 30) ∧
    ( generate_ips_for_prefix "not-a-prefix").1 = "not-a-prefix" := by
  refine ⟨gen_fst, ?_, by decide, by decide, by decide⟩
  intro completed o
  rw [save_all_ips_spec]

/-- C1: for every prefix string the model parses as an IP network under
non-strict parsing, the expander returns the original text, the rendering of
every address of the network — the contiguous numeric range from the network
address, of the network's full size, in strictly ascending numeric order with
no host/broadcast exclusion — and the network's size as the count; concretely,
"10.0.0.0/30" yields exactly 10.0.0.0, 10.0.0.1, 10.0.0.2, 10.0.0.3 in that
order, and "10.0.0.5/30" (host bits set) is normalized to network 10.0.0.4/30
(numeric 167772164) and again yields its 4 addresses. -/
theorem C1_expander_enumerates_network :
    (∀ s a pl, ipNetworkV4 s = some (a, pl) →
      generate_ips_for_prefix s
          = (s, (networkRange a pl).map ipv4ToString, 2 ^ (32 - pl)) ∧
      (networkRange a pl).Pairwise (· < ·) ∧
      (∀ x, x ∈ networkRange a pl ↔ a ≤ x ∧ x < a + 2 ^ (32 - pl))) ∧
    generate_ips_for_prefix "10.0.0.0/30"
        = ("10.0.0.0/30", ["10.0.0.0", "10.0.0.1", "10.0.0.2", "10.0.0.3"], 4) ∧
    ipNetworkV4 "10.0.0.5/30" = some (167772164, 30) ∧
    generate_ips_for_prefix "10.0.0.5/30"
        = ("10.0.0.5/30", ["10.0.0.4", "10.0.0.5", "10.0.0.6", "10.0.0.7"], 4) := by
  refine ⟨?_, by decide, by decide, by decide⟩
  intro s a pl h
  refine ⟨?_, ?_, ?_⟩
  · unfold generate_ips_for_prefix
    rw [h]
    simp [networkRange]
  · exact (List.pairwise_lt_range _).map _ (fun i j hij => by omega)
  · intro x
    simp only [networkRange, List.mem_map, List.mem_range]
    constructor
    · rintro ⟨i, hi, rfl⟩
      omega
    · rintro ⟨h1, h2⟩
      exact ⟨x - a, by omega, by omega⟩

/-- Witness for C1 at "10.0.0.0/30" (network address 167772160). -/
theorem C1_expander_enumerates_network_witness :
    generate_ips_for_prefix "10.0.0.0/30"
        = ("10.0.0.0/30", (networkRange 167772160 30).map ipv4ToString,
           2 ^ (32 - 30)) ∧
    (networkRange 167772160 30).Pairwise (· < ·) := by
  have h := C1_expander_enumerates_network.1 "10.0.0.0/30" 167772160 30 (by decide)
  exact ⟨h.1, h.2.1⟩

/-- Counterexample for C2 as stated: on a line in which the label `route:`
occurs twice, the resolver does not return the whitespace-trimmed text after
the label ("1.2/route:3") — Python's `split('route:')[1]` stops at the second
occurrence of the label, so the code returns "1.2/". -/
theorem C2_counterexample_label_twice :
    get_all_prefixes_from_asn "AS1" (.completed 0 "route: 1.2/route:3" "")
      = ["1.2/"] ∧
    sortedSet (extractRouteSpecWords "route: 1.2/route:3") = ["1.2/route:3"] ∧
    get_all_prefixes_from_asn "AS1" (.completed 0 "route: 1.2/route:3" "")
      ≠ sortedSet (extractRouteSpecWords "route: 1.2/route:3") := by
  exact ⟨by decide, by decide, by decide⟩

/-- C2 as amended: for every WHOIS response text, the resolver returns exactly
the prefixes extracted per line by the rule of `extractRoutePrefixes` (lines
whose stripped form begins with `route:`; the text between the label and its
next occurrence or the end of the line, whitespace-trimmed, kept only when it
contains a slash), as a sorted list without duplicates; in particular the
response with lines "route:  1.2.3.0/24" and "route:   1.2.3.0/24" yields
exactly ["1.2.3.0/24"]. -/
theorem C2_resolver_sorted_dedup_split_field (asn out err : String) :
    List.Sorted (· ≤ ·) (get_all_prefixes_from_asn asn (.completed 0 out err)) ∧
    (get_all_prefixes_from_asn asn (.completed 0 out err)).Nodup ∧
    (∀ p, p ∈ get_all_prefixes_from_asn asn (.completed 0 out err) ↔
      p ∈ extractRoutePrefixes out) ∧
    get_all_prefixes_from_asn "AS8945"
        (.completed 0 "route:  1.2.3.0/24\nroute:   1.2.3.0/24" "")
      = ["1.2.3.0/24"] := by
  have hres : get_all_prefixes_from_asn asn (.completed 0 out err)
      = sortedSet (extractRoutePrefixes out) := by
    simp [get_all_prefixes_from_asn]
  rw [hres]
  refine ⟨?_, ?_, ?_, by decide⟩
  · exact List.sorted_insertionSort _ _
  · exact ((List.perm_insertionSort _ _).nodup_iff).mpr (List.nodup_dedup _)
  · intro p
    rw [sortedSet, List.mem_insertionSort, List.mem_dedup]

/-- C3: on any completion order of the submitted prefixes, the Collector
writes one line per address (the number of lines written equals the reported
total), the total equals the sum of the per-prefix counts, and there is one
stats entry per prefix; instantiated by the witness on 3 prefixes of sizes
4, 8 and 2, giving 14 lines, total 14 and 3 stats entries. -/
theorem C3_collector_totals (pfxs completed : List String) (o : String)
    (h : completed.Perm pfxs) :
    ( save_all_ips completed o).2.1.length = ( save_all_ips completed o).2.2.1 ∧
    ( save_all_ips completed o).2.2.1
      = (pfxs.map (fun p => ( generate_ips_for_prefix p).2.2)).sum ∧
    ( save_all_ips completed o).2.2.2.length = pfxs.length := by
  rw [save_all_ips_spec]
  refine ⟨?_, ?_, ?_⟩
  · rw [List.length_flatten]
    simp [List.map_map, Function.comp_def, gen_len]
  · exact (h.map _).sum_eq
  · simp [h.length_eq]

/-- Witness for C3: three prefixes of sizes 4, 8 and 2, drained in an order
different from submission order, give 14 written lines, total 14, and 3
per-prefix stats entries. -/
theorem C3_collector_totals_witness :
    ( save_all_ips ["10.2.0.0/31", "10.0.0.0/30", "10.1.0.0/29"]
        "ALL_IPS_ASN.txt").2.1.length = 14 ∧
    ( save_all_ips ["10.2.0.0/31", "10.0.0.0/30", "10.1.0.0/29"]
        "ALL_IPS_ASN.txt").2.2.1 = 14 ∧
    ( save_all_ips ["10.2.0.0/31", "10.0.0.0/30", "10.1.0.0/29"]
        "ALL_IPS_ASN.txt").2.2.2.length = 3 := by
  obtain ⟨h1, h2, h3⟩ := C3_collector_totals
    ["10.0.0.0/30", "10.1.0.0/29", "10.2.0.0/31"]
    ["10.2.0.0/31", "10.0.0.0/30", "10.1.0.0/29"] "ALL_IPS_ASN.txt" (by decide)
  have hsum : (["10.0.0.0/30", "10.1.0.0/29", "10.2.0.0/31"].map
      (fun p => ( generate_ips_for_prefix p).2.2)).sum = 14 := by decide
  refine ⟨?_, ?_, ?_⟩
  · rw [h1, h2, hsum]
  · rw [h2, hsum]
  · rw [h3]
    rfl
